import Mathlib

/-!
Shallow embedding of the peacefair_energy integration
(custom_components/peacefair_energy: modbus.py, __init__.py, sensor.py).

Measurement dictionaries are modelled as association lists `List (String × ℚ)`
with Python-dict insertion order; Python floats are modelled as exact
rationals; Python `round(x, n)` is modelled as round-half-to-even on ℚ.
-/

namespace Peacefair

/-- Round-half-to-even on an exact rational: the rounding mode of Python's
built-in `round`, used at sensor.py lines 213 and 347. -/
def roundHalfEven (q : ℚ) : ℤ :=
  if q - ⌊q⌋ < 1/2 then ⌊q⌋
  else if (1 : ℚ)/2 < q - ⌊q⌋ then ⌊q⌋ + 1
  else if ⌊q⌋ % 2 = 0 then ⌊q⌋ else ⌊q⌋ + 1

/-- Python `round(q, n)` on an exact rational. -/
def pyRound (q : ℚ) (n : ℕ) : ℚ :=
  (roundHalfEven (q * (10 : ℚ)^n) : ℚ) / (10 : ℚ)^n

/-- Value of the Home Assistant constant `SensorDeviceClass.VOLTAGE`,
used as a dict key at modbus.py line 166. -/
def VOLTAGE : String := "voltage"

/-- Value of `SensorDeviceClass.CURRENT` (dict key, modbus.py line 167). -/
def CURRENT : String := "current"

/-- Value of `SensorDeviceClass.POWER` (dict key, modbus.py line 170). -/
def POWER : String := "power"

/-- Value of `SensorDeviceClass.ENERGY` (dict key, modbus.py line 173; read
back by the sensors at sensor.py line 190 and via SENSOR_TYPES). -/
def ENERGY : String := "energy"

/-- Value of `SensorDeviceClass.FREQUENCY` (dict key, modbus.py line 176). -/
def FREQUENCY : String := "frequency"

/-- Value of `SensorDeviceClass.POWER_FACTOR` (dict key, modbus.py line 177;
const.py defines the same string as its local POWER_FACTOR constant). -/
def POWER_FACTOR : String := "power_factor"

/-- Value of the Home Assistant constant `UnitOfEnergy.KILO_WATT_HOUR`,
used as a dict key at `__init__.py` line 178.  Note it is a *different
string* from `SensorDeviceClass.ENERGY`. -/
def KILO_WATT_HOUR : String := "kWh"

/-- The measurement-decoding block of `ModbusHub.info_gather`
(modbus.py lines 166-177): builds the data dict from a raw register block,
in source order.  Registers are unsigned 16-bit values; 32-bit quantities
are assembled as `(high << 16) + low` before scaling. -/
def parse_registers (rs : List ℕ) : List (String × ℚ) :=
  [(VOLTAGE, (rs.getD 0 0 : ℚ) / 10),
   (CURRENT, ((((rs.getD 2 0) <<< 16) + rs.getD 1 0 : ℕ) : ℚ) / 1000),
   (POWER, ((((rs.getD 4 0) <<< 16) + rs.getD 3 0 : ℕ) : ℚ) / 10),
   (ENERGY, ((((rs.getD 6 0) <<< 16) + rs.getD 5 0 : ℕ) : ℚ) / 1000),
   (FREQUENCY, (rs.getD 7 0 : ℚ) / 10),
   (POWER_FACTOR, (rs.getD 8 0 : ℚ) / 100)]

/-- Outcome of the transport-level read performed inside
`ModbusHub.info_gather` (modbus.py lines 139-163), one constructor per
distinguishable branch of the source:
`raisedException` — `connect`/`read_input_registers` raised (caught at line
181); `ioException` — the library returned a `ModbusIOException` object
(line 149); `errorResponse` — `result.isError()` (line 153); `noRegisters`
— the response has no `registers` attribute (line 157); `registers rs` — a
response carrying a raw register block. -/
inductive ReadResult where
  | raisedException
  | ioException
  | errorResponse
  | noRegisters
  | registers (rs : List ℕ)
deriving DecidableEq

/-- The spec's error taxonomy for a register read (§7): transport-level
failures versus structurally invalid / wrong-count responses. -/
inductive ReadError where
  | protocolIOError
  | malformedResponseError
deriving DecidableEq

/-- The validation portion of `ModbusHub.info_gather`
(modbus.py lines 146-163) viewed as a register-read contract: each guard
branch that abandons the cycle is labelled with the spec's error kind for
that branch (transport branches → `protocolIOError`; error-flagged /
missing-registers / wrong-count branches → `malformedResponseError`); a
valid response yields the raw block unmodified. -/
def read_registers_checked : ReadResult → Except ReadError (List ℕ)
  | .raisedException => .error .protocolIOError
  | .ioException => .error .protocolIOError
  | .errorResponse => .error .malformedResponseError
  | .noRegisters => .error .malformedResponseError
  | .registers rs =>
      if rs.length ≠ 9 then .error .malformedResponseError else .ok rs

/-- `ModbusHub.info_gather` (modbus.py lines 137-189): returns the data
dict (empty on any failure) together with whether the transport was closed
(the `except` branch at lines 181-187 closes the client so the next call
reconnects).  Total: no exception escapes to the caller. -/
def info_gather : ReadResult → List (String × ℚ) × Bool
  | .raisedException => ([], true)
  | .ioException => ([], false)
  | .errorResponse => ([], false)
  | .noRegisters => ([], false)
  | .registers rs =>
      if rs.length ≠ 9 then ([], false) else (parse_registers rs, false)

/-- Outcome of one executor-job run of `info_gather` as seen by the
coordinator (`__init__.py` line 185): either a data dict was returned, or
the awaited job raised. -/
inductive GatherOutcome where
  | gathered (data_update : List (String × ℚ))
  | raised
deriving DecidableEq

/-- `PeacefairCoordinator._async_update_data` (`__init__.py` lines 181-195):
a truthy (non-empty) dict replaces the cached data; an empty dict or an
exception leaves the previously cached data in place.  Total: no exception
propagates to consumers. -/
def async_update_data (o : GatherOutcome) (old : Option (List (String × ℚ))) :
    Option (List (String × ℚ)) :=
  match o with
  | .gathered d => if d ≠ [] then some d else old
  | .raised => old

/-- A sequence of poll cycles folded through the coordinator's update. -/
def run_polls (os : List GatherOutcome) (init : Option (List (String × ℚ))) :
    Option (List (String × ℚ)) :=
  os.foldl (fun acc o => async_update_data o acc) init

/-- Python `d[k] = v` on an insertion-ordered dict modelled as an
association list: overwrite in place if the key exists, else append. -/
def dict_set (d : List (String × ℚ)) (k : String) (v : ℚ) :
    List (String × ℚ) :=
  if (d.lookup k).isSome then
    d.map (fun p => if p.1 = k then (k, v) else p)
  else d ++ [(k, v)]

/-- `PeacefairCoordinator.reset_energy` (`__init__.py` lines 172-179), its
cache-mutation part: when cached data is truthy, it executes
`self.data[UnitOfEnergy.KILO_WATT_HOUR] = 0.0` and republishes; the device
command itself is a transport side effect outside the cache. -/
def reset_energy (data : Option (List (String × ℚ))) :
    Option (List (String × ℚ)) :=
  match data with
  | some d => if d ≠ [] then some (dict_set d KILO_WATT_HOUR 0) else some d
  | none => none

/-- Mutable state of `PeacefairMonthlyEnergy` (sensor.py lines 152-213):
`_start_energy`, `_last_reset_month`, `_attr_native_value`. -/
structure MonthlyState where
  start_energy : Option ℚ
  last_reset_month : Option ℕ
  attr_native_value : Option ℚ
deriving DecidableEq

/-- `PeacefairMonthlyEnergy.native_value` (sensor.py lines 188-213) as an
explicit state transformer: `coordEnergy` is
`coordinator.data.get(SensorDeviceClass.ENERGY)` (none when there is no
coordinator data or no energy key), `nowMonth` is `dt_util.now().month`.
Returns the value of the property together with the mutated state. -/
def native_value (s : MonthlyState) (coordEnergy : Option ℚ) (nowMonth : ℕ) :
    Option ℚ × MonthlyState :=
  match coordEnergy with
  | none => (s.attr_native_value, s)
  | some current_total =>
    match s.start_energy, s.last_reset_month with
    | some se, some lrm =>
        if lrm ≠ nowMonth then
          (some 0, { s with start_energy := some current_total,
                            last_reset_month := some nowMonth })
        else
          let monthly_usage := current_total - se
          if monthly_usage < 0 then
            (some 0, { s with start_energy := some current_total })
          else
            (some (pyRound monthly_usage 3), s)
    | _, _ =>
        (some 0, { s with start_energy := some current_total,
                          last_reset_month := some nowMonth })

/-- A sequence of evaluations of the monthly sensor, one per successful
poll: each step feeds the lifetime-energy reading and the wall-clock month
of that poll, threading the sensor state. -/
def eval_seq : MonthlyState → List (ℚ × ℕ) → List (Option ℚ)
  | _, [] => []
  | s, (t, m) :: rest =>
      let r := native_value s (some t) m
      r.1 :: eval_seq r.2 rest

/-- The durable record of `PeacefairMonthlyEnergy`: the restored HA state
object seen by `async_added_to_hass` (sensor.py lines 168-179).
`start_energy` / `last_reset_month` come from `extra_state_attributes`
(lines 181-186); `displayed` is `float(state.state)` when it parses, none
otherwise (the `except` at line 178). -/
structure PersistedSensorState where
  start_energy : Option ℚ
  last_reset_month : Option ℕ
  displayed : Option ℚ
deriving DecidableEq

/-- What `extra_state_attributes` persists for a live sensor state,
together with the last rendered state string (as a parsed value). -/
def persist_state (s : MonthlyState) (lastDisplayed : Option ℚ) :
    PersistedSensorState :=
  ⟨s.start_energy, s.last_reset_month, lastDisplayed⟩

/-- `PeacefairMonthlyEnergy.async_added_to_hass` (sensor.py lines 168-179):
starting from the freshly constructed state (all fields none, lines
165-166), copies the two baseline attributes from the restored record; if
the restored `start_energy` is not none, Python's `and` then evaluates the
`native_value` property (with its side effects) and, when that is none,
installs the parsed previous state string as `_attr_native_value`. -/
def async_added_to_hass (restored : Option PersistedSensorState)
    (coordEnergy : Option ℚ) (nowMonth : ℕ) : MonthlyState :=
  match restored with
  | none => ⟨none, none, none⟩
  | some p =>
    let s1 : MonthlyState := ⟨p.start_energy, p.last_reset_month, none⟩
    if p.start_energy.isSome then
      let r := native_value s1 coordEnergy nowMonth
      if r.1 = none then { r.2 with attr_native_value := p.displayed }
      else r.2
    else s1

/-- The tiered-pricing configuration read from the config entry's options
(sensor.py lines 237-267), with the summer-month list already parsed (the
string-splitting and option-default plumbing at lines 240-244 is Home
Assistant config handling outside this core). -/
structure RateTable where
  summer_months : List ℕ
  summer_tier1 : ℚ
  summer_tier2 : ℚ
  non_summer_tier1 : ℚ
  non_summer_tier2 : ℚ
  summer_price_l1 : ℚ
  summer_price_l2 : ℚ
  summer_price_l3 : ℚ
  non_summer_price_l1 : ℚ
  non_summer_price_l2 : ℚ
  non_summer_price_l3 : ℚ
deriving DecidableEq

/-- `PeacefairCalculatedSensor._get_season_config` (sensor.py lines
237-269): selects the (limits, prices) pair by membership of the current
month in the configured summer months. -/
def get_season_config (nowMonth : ℕ) (t : RateTable) :
    (ℚ × ℚ) × (ℚ × ℚ × ℚ) :=
  if nowMonth ∈ t.summer_months then
    ((t.summer_tier1, t.summer_tier2),
     (t.summer_price_l1, t.summer_price_l2, t.summer_price_l3))
  else
    ((t.non_summer_tier1, t.non_summer_tier2),
     (t.non_summer_price_l1, t.non_summer_price_l2, t.non_summer_price_l3))

/-- `PeacefairCalculatedSensor._get_current_level` (sensor.py lines
271-281). -/
def get_current_level (monthly_energy : ℚ) (nowMonth : ℕ) (t : RateTable) :
    ℕ :=
  let limits := (get_season_config nowMonth t).1
  if monthly_energy ≤ limits.1 then 1
  else if monthly_energy ≤ limits.2 then 2
  else 3

/-- Modelled from the spec (§4.5): `classify(monthlyConsumption, nowMonth,
table)` — summer membership by `nowMonth ∈ table.summerMonths`, then
tier 1 if consumption ≤ tier1Limit, 2 if ≤ tier2Limit, else 3.  Stated
separately from `get_current_level` so the source can be compared with the
spec's words. -/
def classify_spec (c : ℚ) (nowMonth : ℕ) (t : RateTable) : ℕ :=
  let lims := if nowMonth ∈ t.summer_months then (t.summer_tier1, t.summer_tier2)
              else (t.non_summer_tier1, t.non_summer_tier2)
  if c ≤ lims.1 then 1 else if c ≤ lims.2 then 2 else 3

/-- `PeacefairCostSensor.native_value` (sensor.py lines 332-347) with the
season's limits and prices already selected: the progressive tier cost,
rounded to 2 decimal places. -/
def cost_native_value (energy l1 l2 p1 p2 p3 : ℚ) : ℚ :=
  let total_cost :=
    if energy ≤ l1 then energy * p1
    else if energy ≤ l2 then l1 * p1 + (energy - l1) * p2
    else l1 * p1 + (l2 - l1) * p2 + (energy - l2) * p3
  pyRound total_cost 2

/-- Modelled from the spec (§4.5): the progressive-billing sum for
`cumulativeCost`, before rounding.  Stated separately so the source's cost
sensor can be compared with the spec's formula. -/
def cumulativeCost_spec (c t1 t2 p1 p2 p3 : ℚ) : ℚ :=
  if c ≤ t1 then c * p1
  else if c ≤ t2 then t1 * p1 + (c - t1) * p2
  else t1 * p1 + (t2 - t1) * p2 + (c - t2) * p3

/-- The default tiered-rate configuration of const.py lines 16-30. -/
def default_rate_table : RateTable :=
  { summer_months := [5, 6, 7, 8, 9, 10]
    summer_tier1 := 260
    summer_tier2 := 600
    non_summer_tier1 := 200
    non_summer_tier2 := 400
    summer_price_l1 := 59886875/100000000
    summer_price_l2 := 64886875/100000000
    summer_price_l3 := 89886875/100000000
    non_summer_price_l1 := 59886875/100000000
    non_summer_price_l2 := 64886875/100000000
    non_summer_price_l3 := 89886875/100000000 }

lemma roundHalfEven_nonneg (q : ℚ) (h : 0 ≤ q) : 0 ≤ roundHalfEven q := by
  have hf : (0 : ℤ) ≤ ⌊q⌋ := Int.floor_nonneg.mpr h
  unfold roundHalfEven
  split_ifs <;> omega

lemma pyRound_nonneg (q : ℚ) (n : ℕ) (h : 0 ≤ q) : 0 ≤ pyRound q n := by
  unfold pyRound
  apply div_nonneg
  · exact_mod_cast roundHalfEven_nonneg _ (mul_nonneg h (by positivity))
  · positivity

lemma run_polls_append (xs ys : List GatherOutcome)
    (init : Option (List (String × ℚ))) :
    run_polls (xs ++ ys) init = run_polls ys (run_polls xs init) := by
  simp [run_polls, List.foldl_append]

lemma run_polls_gathered_snoc (ds : List (List (String × ℚ)))
    (d : List (String × ℚ)) (hd : d ≠ []) :
    ∀ init, (∀ x ∈ ds, x ≠ []) →
      run_polls ((ds ++ [d]).map GatherOutcome.gathered) init = some d := by
  induction ds with
  | nil => intro init _; simp [run_polls, async_update_data, hd]
  | cons x rest ih =>
    intro init hds
    simp only [List.cons_append, List.map_cons, run_polls, List.foldl_cons]
    exact ih _ (fun y hy => hds y (by simp [hy]))

/-- Claim C1: every failed poll cycle (an exception from the executor job
or an empty dict from `info_gather`) leaves the coordinator's cached data
unchanged — the update function is total, so no exception reaches readers
of the cached data — and after N successful polls followed by one failed
poll the cache still holds the Nth snapshot. -/
theorem C1_failed_poll_preserves_cache :
    (∀ old, async_update_data .raised old = old) ∧
    (∀ old, async_update_data (.gathered []) old = old) ∧
    (∀ (ds : List (List (String × ℚ))) (d : List (String × ℚ))
       (init : Option (List (String × ℚ))) (o : GatherOutcome),
       (∀ x ∈ ds, x ≠ []) → d ≠ [] →
       (o = .raised ∨ o = .gathered []) →
       run_polls ((ds ++ [d]).map GatherOutcome.gathered ++ [o]) init = some d) := by
  refine ⟨fun old => rfl, fun old => rfl, ?_⟩
  intro ds d init o hds hd ho
  rw [run_polls_append, run_polls_gathered_snoc ds d hd init hds]
  rcases ho with h | h <;> subst h <;> rfl

/-- Witness for C1 at a concrete run: one successful poll with a one-key
snapshot, then an exception-failed poll, leaves that snapshot cached. -/
theorem C1_witness :
    run_polls (([] ++ [[(VOLTAGE, (230 : ℚ))]]).map GatherOutcome.gathered ++
        [GatherOutcome.raised]) none = some [(VOLTAGE, (230 : ℚ))] :=
  C1_failed_poll_preserves_cache.2.2 [] [(VOLTAGE, (230 : ℚ))] none .raised
    (by simp) (by simp) (Or.inl rfl)

/-- Claim C2: decoding a 9-register block follows the documented layout —
voltage = reg0/10, current = ((reg2 << 16) + reg1)/1000, power =
((reg4 << 16) + reg3)/10, energy = ((reg6 << 16) + reg5)/1000, frequency =
reg7/10, power factor = reg8/100 — and the concrete block
[2300,100,0,50,0,0,0,500,95] decodes to 230.0 V, 0.1 A, 5.0 W, 0.0 kWh,
50.0 Hz, power factor 0.95. -/
theorem C2_decoder_layout (r0 r1 r2 r3 r4 r5 r6 r7 r8 : ℕ)
    (h0 : r0 < 65536) (h1 : r1 < 65536) (h2 : r2 < 65536) (h3 : r3 < 65536)
    (h4 : r4 < 65536) (h5 : r5 < 65536) (h6 : r6 < 65536) (h7 : r7 < 65536)
    (h8 : r8 < 65536) :
    parse_registers [r0, r1, r2, r3, r4, r5, r6, r7, r8] =
      [(VOLTAGE, (r0 : ℚ) / 10),
       (CURRENT, ((r2 : ℚ) * 65536 + (r1 : ℚ)) / 1000),
       (POWER, ((r4 : ℚ) * 65536 + (r3 : ℚ)) / 10),
       (ENERGY, ((r6 : ℚ) * 65536 + (r5 : ℚ)) / 1000),
       (FREQUENCY, (r7 : ℚ) / 10),
       (POWER_FACTOR, (r8 : ℚ) / 100)] ∧
    parse_registers [2300, 100, 0, 50, 0, 0, 0, 500, 95] =
      [(VOLTAGE, 230), (CURRENT, 1/10), (POWER, 5), (ENERGY, 0),
       (FREQUENCY, 50), (POWER_FACTOR, 95/100)] := by
  constructor
  · simp only [parse_registers, List.getD, List.getElem?_cons_zero,
      List.getElem?_cons_succ, Option.getD_some]
    push_cast [Nat.shiftLeft_eq]
    norm_num
  · norm_num [parse_registers]

/-- Witness for C2 at the spec's concrete block. -/
theorem C2_witness :
    parse_registers [2300, 100, 0, 50, 0, 0, 0, 500, 95] =
      [(VOLTAGE, 230), (CURRENT, 1/10), (POWER, 5), (ENERGY, 0),
       (FREQUENCY, 50), (POWER_FACTOR, 95/100)] :=
  (C2_decoder_layout 2300 100 0 50 0 0 0 500 95 (by norm_num) (by norm_num)
    (by norm_num) (by norm_num) (by norm_num) (by norm_num) (by norm_num)
    (by norm_num) (by norm_num)).2

/-- Claim C8: the register-read contract — transport-level failure branches
classify as ProtocolIOError, error-flagged / missing-register /
wrong-count branches classify as MalformedResponseError, and a 9-register
response is passed through unmodified with no interpretation. -/
theorem C8_read_error_classification :
    read_registers_checked .raisedException = .error .protocolIOError ∧
    read_registers_checked .ioException = .error .protocolIOError ∧
    read_registers_checked .errorResponse = .error .malformedResponseError ∧
    read_registers_checked .noRegisters = .error .malformedResponseError ∧
    (∀ rs : List ℕ, rs.length ≠ 9 →
      read_registers_checked (.registers rs) = .error .malformedResponseError) ∧
    (∀ rs : List ℕ, rs.length = 9 →
      read_registers_checked (.registers rs) = .ok rs) := by
  refine ⟨rfl, rfl, rfl, rfl, ?_, ?_⟩
  · intro rs h
    simp [read_registers_checked, h]
  · intro rs h
    simp [read_registers_checked, h]

/-- Witness for C8: a valid 9-register response is returned unmodified,
and a short 3-register response is malformed. -/
theorem C8_witness :
    read_registers_checked (.registers [2300, 100, 0, 50, 0, 0, 0, 500, 95]) =
      .ok [2300, 100, 0, 50, 0, 0, 0, 500, 95] ∧
    read_registers_checked (.registers [2300, 100, 0]) =
      .error .malformedResponseError :=
  ⟨C8_read_error_classification.2.2.2.2.2 _ (by norm_num),
   C8_read_error_classification.2.2.2.2.1 _ (by norm_num)⟩

/-- Claim C10: `info_gather` is all-or-nothing — its result dict is either
empty or carries exactly the six measurement keys in order, never a
partial subset — it is a total function (no exception escapes to the
caller), and the internal-exception branch closes the transport so the
next call reconnects. -/
theorem C10_info_gather_all_or_nothing (r : ReadResult) :
    ((info_gather r).1 = [] ∨
      (info_gather r).1.map Prod.fst =
        [VOLTAGE, CURRENT, POWER, ENERGY, FREQUENCY, POWER_FACTOR]) ∧
    (r = .raisedException → (info_gather r).2 = true) ∧
    (∀ rs, r = .registers rs → rs.length = 9 →
      (info_gather r).1 = parse_registers rs) := by
  refine ⟨?_, ?_, ?_⟩
  · cases r with
    | registers rs =>
      by_cases h : rs.length = 9
      · right
        simp [info_gather, h, parse_registers]
      · left
        simp [info_gather, h]
    | raisedException => left; rfl
    | ioException => left; rfl
    | errorResponse => left; rfl
    | noRegisters => left; rfl
  · intro h; subst h; rfl
  · intro rs h h9
    subst h
    simp [info_gather, h9]

/-- Witness for C10: the exception branch returns the empty dict and
closes the transport; a valid read returns the full decoded dict. -/
theorem C10_witness :
    (info_gather .raisedException).2 = true ∧
    (info_gather (.registers [2300, 100, 0, 50, 0, 0, 0, 500, 95])).1 =
      parse_registers [2300, 100, 0, 50, 0, 0, 0, 500, 95] :=
  ⟨(C10_info_gather_all_or_nothing .raisedException).2.1 rfl,
   (C10_info_gather_all_or_nothing _).2.2 _ rfl (by norm_num)⟩

lemma native_value_some_congr (a a' : MonthlyState)
    (h1 : a.start_energy = a'.start_energy)
    (h2 : a.last_reset_month = a'.last_reset_month) (t : ℚ) (m : ℕ) :
    (native_value a (some t) m).1 = (native_value a' (some t) m).1 ∧
    (native_value a (some t) m).2.start_energy =
      (native_value a' (some t) m).2.start_energy ∧
    (native_value a (some t) m).2.last_reset_month =
      (native_value a' (some t) m).2.last_reset_month := by
  obtain ⟨x, y, z⟩ := a
  obtain ⟨x', y', z'⟩ := a'
  simp only at h1 h2
  subst h1; subst h2
  cases x <;> cases y <;> simp [native_value] <;> split_ifs <;> simp

lemma eval_seq_congr (inputs : List (ℚ × ℕ)) : ∀ (a a' : MonthlyState),
    a.start_energy = a'.start_energy →
    a.last_reset_month = a'.last_reset_month →
    eval_seq a inputs = eval_seq a' inputs := by
  induction inputs with
  | nil => intro a a' _ _; rfl
  | cons p rest ih =>
    intro a a' h1 h2
    obtain ⟨t, m⟩ := p
    obtain ⟨hv, hs, hm⟩ := native_value_some_congr a a' h1 h2 t m
    simp only [eval_seq]
    rw [hv]
    exact congrArg _ (ih _ _ hs hm)

/-- Claim C3: the monthly accumulator on a live reading — cold start
(missing baseline or baseline month) sets baseline/month and returns 0;
month rollover resets baseline/month and returns 0; a non-negative delta
returns round(delta, 3); and evaluate(123.456, month 6) with baseline 100
in month 6 returns 23.456. -/
theorem C3_monthly_accumulator_evaluate (s : MonthlyState) (t : ℚ) (m : ℕ) :
    ((s.start_energy = none ∨ s.last_reset_month = none) →
      native_value s (some t) m =
        (some 0, { s with start_energy := some t,
                          last_reset_month := some m })) ∧
    (∀ b lm, s.start_energy = some b → s.last_reset_month = some lm →
      lm ≠ m →
      native_value s (some t) m =
        (some 0, { s with start_energy := some t,
                          last_reset_month := some m })) ∧
    (∀ b, s.start_energy = some b → s.last_reset_month = some m →
      0 ≤ t - b →
      native_value s (some t) m = (some (pyRound (t - b) 3), s)) ∧
    native_value ⟨some 100, some 6, none⟩ (some (123456/1000)) 6 =
      (some (23456/1000), ⟨some 100, some 6, none⟩) := by
  obtain ⟨a, b0, c⟩ := s
  refine ⟨?_, ?_, ?_, ?_⟩
  · rintro (h | h)
    · simp only at h
      subst h
      cases b0 <;> simp [native_value]
    · simp only at h
      subst h
      cases a <;> simp [native_value]
  · intro b lm hb hlm hne
    simp only at hb hlm
    subst hb; subst hlm
    simp [native_value, hne]
  · intro b hb hlm hnn
    simp only at hb hlm
    subst hb; subst hlm
    simp [native_value, not_lt.mpr hnn]
  · norm_num [native_value, pyRound, roundHalfEven]

/-- Witness for C3: a cold-start evaluation at reading 100 in month 6. -/
theorem C3_witness :
    native_value ⟨none, none, none⟩ (some 100) 6 =
      (some 0, ⟨some 100, some 6, none⟩) :=
  (C3_monthly_accumulator_evaluate ⟨none, none, none⟩ 100 6).1 (Or.inl rfl)

/-- Claim C4: every value the accumulator produces from a live reading is
non-negative, and a reading strictly below the stored baseline (device
reset) re-baselines to the current reading and returns 0 instead of a
negative monthly value. -/
theorem C4_monthly_never_negative (s : MonthlyState) (t : ℚ) (m : ℕ) :
    (∀ v, (native_value s (some t) m).1 = some v → 0 ≤ v) ∧
    (∀ b, s.start_energy = some b → s.last_reset_month = some m → t < b →
      native_value s (some t) m =
        (some 0, { s with start_energy := some t })) := by
  obtain ⟨a, b0, c⟩ := s
  constructor
  · intro v hv
    cases a with
    | none =>
      cases b0 <;> simp [native_value] at hv <;> simp [← hv]
    | some se =>
      cases b0 with
      | none => simp [native_value] at hv; simp [← hv]
      | some lrm =>
        by_cases hm : lrm ≠ m
        · simp [native_value, hm] at hv; simp [← hv]
        · push_neg at hm
          subst hm
          by_cases hneg : t - se < 0
          · simp [native_value, hneg] at hv; simp [← hv]
          · simp [native_value, hneg] at hv
            rw [← hv]
            exact pyRound_nonneg _ _ (by linarith)
  · intro b hb hm ht
    simp only at hb hm
    subst hb; subst hm
    simp [native_value, sub_neg.mpr ht]

/-- Witness for C4: baseline 100 in month 6, reading 5 in month 6 —
the accumulator returns 0 and re-baselines to 5. -/
theorem C4_witness :
    native_value ⟨some 100, some 6, none⟩ (some 5) 6 =
      (some 0, ⟨some 5, some 6, none⟩) :=
  (C4_monthly_never_negative ⟨some 100, some 6, none⟩ 5 6).2 100 rfl rfl
    (by norm_num)

/-- Claim C5: for tier limits l1 ≤ l2, the cost sensor equals the spec's
progressive-billing sum rounded to 2 decimals; with limits (260, 600) and
prices (0.5, 0.6, 0.7) it gives 130.0 at 260 kWh, 334.0 at 600 kWh and
404.0 at 700 kWh — and at 700 kWh it differs from flat
consumption × unit-price-of-active-tier billing. -/
theorem C5_progressive_cost (c l1 l2 p1 p2 p3 : ℚ) (h : l1 ≤ l2) :
    cost_native_value c l1 l2 p1 p2 p3 =
      pyRound (cumulativeCost_spec c l1 l2 p1 p2 p3) 2 ∧
    cost_native_value 260 260 600 (1/2) (3/5) (7/10) = 130 ∧
    cost_native_value 600 260 600 (1/2) (3/5) (7/10) = 334 ∧
    cost_native_value 700 260 600 (1/2) (3/5) (7/10) = 404 ∧
    cost_native_value 700 260 600 (1/2) (3/5) (7/10) ≠
      pyRound (700 * (7/10)) 2 := by
  refine ⟨rfl, ?_, ?_, ?_, ?_⟩ <;>
    norm_num [cost_native_value, pyRound, roundHalfEven]

/-- Witness for C5 at the spec's boundary example. -/
theorem C5_witness :
    cost_native_value 260 260 600 (1/2) (3/5) (7/10) = 130 :=
  (C5_progressive_cost 0 0 0 0 0 0 le_rfl).2.1

/-- Claim C6: the tier classification selects the seasonal limit pair by
membership of the current month in the configured summer months and
matches the spec's classify (tier 1 iff consumption ≤ tier1Limit, tier 2
iff ≤ tier2Limit, else 3); exactly at the tier-1 limit the lower tier 1
applies, and exactly at the tier-2 limit (with tier1 ≤ tier2) the result
is at most tier 2. -/
theorem C6_tier_classification (e : ℚ) (m : ℕ) (t : RateTable) :
    get_current_level e m t = classify_spec e m t ∧
    (e = (get_season_config m t).1.1 → get_current_level e m t = 1) ∧
    (e = (get_season_config m t).1.2 →
      (get_season_config m t).1.1 ≤ (get_season_config m t).1.2 →
      get_current_level e m t ≤ 2) := by
  by_cases hm : m ∈ t.summer_months
  · refine ⟨by simp [get_current_level, classify_spec, get_season_config, hm], ?_, ?_⟩
    · intro he
      simp only [get_season_config, hm, if_true] at he
      simp [get_current_level, get_season_config, hm, he]
    · intro he hle
      simp only [get_season_config, hm, if_true] at he hle
      subst he
      simp only [get_current_level, get_season_config, hm, if_true]
      split_ifs with hc1 hc2
      · norm_num
      · norm_num
      · exact absurd le_rfl hc2
  · refine ⟨by simp [get_current_level, classify_spec, get_season_config, hm], ?_, ?_⟩
    · intro he
      simp only [get_season_config, hm, if_false] at he
      simp [get_current_level, get_season_config, hm, he]
    · intro he hle
      simp only [get_season_config, hm, if_false] at he hle
      subst he
      simp only [get_current_level, get_season_config, hm, if_false]
      split_ifs with hc1 hc2
      · norm_num
      · norm_num
      · exact absurd le_rfl hc2

/-- Witness for C6: at exactly 260 kWh in June under the default table
(summer tier-1 limit 260), the level is 1. -/
theorem C6_witness : get_current_level 260 6 default_rate_table = 1 :=
  (C6_tier_classification 260 6 default_rate_table).2.1
    (by norm_num [get_season_config, default_rate_table])

lemma kwh_beq_facts :
    ("kWh" == "voltage") = false ∧ ("kWh" == "current") = false ∧
    ("kWh" == "power") = false ∧ ("kWh" == "energy") = false ∧
    ("kWh" == "frequency") = false ∧ ("kWh" == "power_factor") = false ∧
    ("energy" == "voltage") = false ∧ ("energy" == "current") = false ∧
    ("energy" == "power") = false ∧ ("energy" == "energy") = true ∧
    ¬ (("voltage" : String) = "kWh") ∧ ¬ (("current" : String) = "kWh") ∧
    ¬ (("power" : String) = "kWh") ∧ ¬ (("energy" : String) = "kWh") ∧
    ¬ (("frequency" : String) = "kWh") ∧
    ¬ (("power_factor" : String) = "kWh") := by decide

/-- Claim C7 fails on the code: `reset_energy` executes
`self.data[UnitOfEnergy.KILO_WATT_HOUR] = 0.0`, i.e. it writes the key
"kWh", while the cached snapshot's energy field — written by `info_gather`
and read by every sensor — is the key "energy" (`SensorDeviceClass.ENERGY`).
So on a cached snapshot with energy 5.0 kWh the energy field is still 5.0
after the reset (only a stray "kWh" entry is added), and the optimistic
zero the spec requires never appears; the next successful poll replaces
the whole dict, dropping the stray key. -/
theorem C7_reset_does_not_zero_energy_key :
    (reset_energy (some (parse_registers [2300, 100, 0, 50, 0, 5000, 0, 500, 95]))).map
        (fun d => d.lookup ENERGY) = some (some 5) ∧
    (reset_energy (some (parse_registers [2300, 100, 0, 50, 0, 5000, 0, 500, 95]))).map
        (fun d => d.lookup KILO_WATT_HOUR) = some (some 0) ∧
    async_update_data
        (.gathered (parse_registers [2300, 100, 0, 50, 0, 7500, 0, 500, 95]))
        (reset_energy (some (parse_registers [2300, 100, 0, 50, 0, 5000, 0, 500, 95]))) =
      some (parse_registers [2300, 100, 0, 50, 0, 7500, 0, 500, 95]) := by
  have hp : parse_registers [2300, 100, 0, 50, 0, 5000, 0, 500, 95] =
      [(VOLTAGE, 230), (CURRENT, 1/10), (POWER, 5), (ENERGY, 5),
       (FREQUENCY, 50), (POWER_FACTOR, 95/100)] := by
    norm_num [parse_registers]
  have hp7 : parse_registers [2300, 100, 0, 50, 0, 7500, 0, 500, 95] =
      [(VOLTAGE, 230), (CURRENT, 1/10), (POWER, 5), (ENERGY, 15/2),
       (FREQUENCY, 50), (POWER_FACTOR, 95/100)] := by
    norm_num [parse_registers]
  refine ⟨?_, ?_, ?_⟩
  · rw [hp]
    simp only [reset_energy, dict_set, VOLTAGE, CURRENT, POWER, ENERGY,
      FREQUENCY, POWER_FACTOR, KILO_WATT_HOUR]
    norm_num [List.lookup, List.cons_ne_nil, kwh_beq_facts]
  · rw [hp]
    simp only [reset_energy, dict_set, VOLTAGE, CURRENT, POWER, ENERGY,
      FREQUENCY, POWER_FACTOR, KILO_WATT_HOUR]
    norm_num [List.lookup, List.cons_ne_nil, kwh_beq_facts]
  · rw [hp, hp7]
    simp only [reset_energy, dict_set, async_update_data, VOLTAGE, CURRENT,
      POWER, ENERGY, FREQUENCY, POWER_FACTOR, KILO_WATT_HOUR]
    norm_num [List.lookup, List.cons_ne_nil, kwh_beq_facts]

/-- Claim C9: restoring the persisted record at startup (with no
coordinator data yet) reinstates exactly the baseline-energy/baseline-month
pair; the pre-poll displayed value is either the persisted previous state
or none — reading it neither computes a fresh consumption value nor
mutates the state — and any subsequent sequence of live readings produces
exactly the outputs the pre-restart state would have produced. -/
theorem C9_restore_round_trip (s : MonthlyState) (disp : Option ℚ)
    (m0 : ℕ) (inputs : List (ℚ × ℕ)) :
    (async_added_to_hass (some (persist_state s disp)) none m0).start_energy
        = s.start_energy ∧
    (async_added_to_hass (some (persist_state s disp)) none m0).last_reset_month
        = s.last_reset_month ∧
    ((async_added_to_hass (some (persist_state s disp)) none m0).attr_native_value
        = disp ∨
     (async_added_to_hass (some (persist_state s disp)) none m0).attr_native_value
        = none) ∧
    (∀ m, native_value (async_added_to_hass (some (persist_state s disp)) none m0)
        none m =
      ((async_added_to_hass (some (persist_state s disp)) none m0).attr_native_value,
       async_added_to_hass (some (persist_state s disp)) none m0)) ∧
    eval_seq (async_added_to_hass (some (persist_state s disp)) none m0) inputs
      = eval_seq s inputs := by
  obtain ⟨a, b0, c⟩ := s
  have hrestore : async_added_to_hass (some (persist_state ⟨a, b0, c⟩ disp)) none m0 =
      if a.isSome then ⟨a, b0, disp⟩ else ⟨a, b0, none⟩ := by
    cases a <;> simp [async_added_to_hass, persist_state, native_value]
  rw [hrestore]
  cases a with
  | none =>
    refine ⟨rfl, rfl, Or.inr rfl, fun m => rfl, ?_⟩
    exact eval_seq_congr inputs _ _ rfl rfl
  | some v =>
    refine ⟨rfl, rfl, Or.inl rfl, fun m => rfl, ?_⟩
    exact eval_seq_congr inputs _ _ rfl rfl

end Peacefair
